import Mathlib

/-!
Verification development for the knob-compatibility rewrite engine of
src/Engine/LoadKnobsCompat.cpp (Natron).

The engine walks two fixed registries of rewrite rules (one for parameter
names, one for choice-option values) and decides whether a legacy
identifier must be replaced by a canonical one, given the plugin identity,
the plugin version and the host (Natron) version.

Strings are modelled as Lean `String`; std::string comparison helpers are
translated over the underlying character lists so that every definition is
executable and kernel-reducible.  Versions are modelled as `Int`, with -1
as the "unknown / unbounded" sentinel exactly as in the source.
-/

set_option maxRecDepth 4000

namespace LoadKnobsCompat

/-- Source function `startsWith(str, prefix)`: `str.substr(0, prefix.size()) == prefix`.
If the pattern is longer than the subject the substring is shorter than the
pattern and the comparison fails, i.e. this is an ordinary prefix test. -/
def startsWith (str pat : String) : Bool :=
  pat.data.isPrefixOf str.data

/-- Source function `endsWith(str, suffix)`: size guard plus suffix comparison. -/
def endsWith (str pat : String) : Bool :=
  pat.data.isSuffixOf str.data

/-- Source function `equalsStringCaseSensitive`: byte-exact equality. -/
def equalsStringCaseSensitive (str1 str2 : String) : Bool :=
  str1 == str2

/-- ASCII lower-case folding of one character, as a numeric code point. -/
def tolower (c : Char) : Nat :=
  if 65 ≤ c.toNat ∧ c.toNat ≤ 90 then c.toNat + 32 else c.toNat

/-- Case-folded key of a string: the list of its lower-cased code points. -/
def lowerKey (s : String) : List Nat :=
  s.data.map tolower

/-- Source function `equalsStringCaseInsensitive` (boost::iequals): equal length and
characters equal up to ASCII case folding. -/
def equalsStringCaseInsensitive (str1 str2 : String) : Bool :=
  lowerKey str1 == lowerKey str2

/-- The closed set of comparison strategies installed through the C++
function pointer `stringFuncPtr`; only these four functions are ever
stored in the registries. -/
inductive StringFuncPtr where
  | startsWithPtr
  | endsWithPtr
  | equalsCaseSensitivePtr
  | equalsCaseInsensitivePtr
deriving DecidableEq

/-- Dispatch of a stored `stringFuncPtr` on its two string arguments. -/
def StringFuncPtr.call : StringFuncPtr → String → String → Bool
  | .startsWithPtr, a, b => startsWith a b
  | .endsWithPtr, a, b => endsWith a b
  | .equalsCaseSensitivePtr, a, b => equalsStringCaseSensitive a b
  | .equalsCaseInsensitivePtr, a, b => equalsStringCaseInsensitive a b

/-- Source struct `FilterMatcher`. -/
structure FilterMatcher where
  nameToMatch : String
  func : StringFuncPtr
deriving DecidableEq

/-- Source struct `PluginMatch`. The four version fields are -1 when the
corresponding bound is absent. -/
structure PluginMatch where
  pluginID : String
  pluginVersionMajorMin : Int
  pluginVersionMinorMin : Int
  pluginVersionMajorMax : Int
  pluginVersionMinorMax : Int
  func : StringFuncPtr
deriving DecidableEq

/-- Source struct `KnobMatch`: one name alternative together with the
plug-ins it applies to (empty list = any plug-in). -/
structure KnobMatch where
  plugin : List PluginMatch
  filter : FilterMatcher
deriving DecidableEq

/-- Source struct `NatronVersionMatch`; all fields default to -1. -/
structure NatronVersionMatch where
  vMajor : Int
  vMinor : Int
  vRev : Int
deriving DecidableEq

/-- Source struct `KnobNameFilter`. -/
structure KnobNameFilter where
  filters : List KnobMatch
  replacement : String
  natronVersionMin : NatronVersionMatch
  natronVersionMax : NatronVersionMatch
deriving DecidableEq

/-- Source struct `KnobChoiceOptionFilter`. -/
structure KnobChoiceOptionFilter where
  filters : List KnobMatch
  optionFilters : List FilterMatcher
  replacement : String
  natronVersionMin : NatronVersionMatch
  natronVersionMax : NatronVersionMatch
deriving DecidableEq

/-- Modelled from the spec: opaque canonical identifier constant
`kNatronOfxParamProcessR` supplied by ofxNatron.h, which is not under
src/; the spec treats these as opaque string constants of the hosting
protocol. -/
def kNatronOfxParamProcessR : String := "NatronOfxParamProcessR"

/-- Modelled from the spec: opaque constant `kNatronOfxParamProcessG`
from ofxNatron.h (not under src/). -/
def kNatronOfxParamProcessG : String := "NatronOfxParamProcessG"

/-- Modelled from the spec: opaque constant `kNatronOfxParamProcessB`
from ofxNatron.h (not under src/). -/
def kNatronOfxParamProcessB : String := "NatronOfxParamProcessB"

/-- Modelled from the spec: opaque constant `kNatronOfxParamProcessA`
from ofxNatron.h (not under src/). -/
def kNatronOfxParamProcessA : String := "NatronOfxParamProcessA"

/-- Modelled from the spec: opaque color-plane identifier constant
`kNatronColorPlaneID` from ofxNatron.h (not under src/). -/
def kNatronColorPlaneID : String := "Color"

/-- Modelled from the spec: opaque plane identifier constant
`kNatronBackwardMotionVectorsPlaneID` from ofxNatron.h (not under src/). -/
def kNatronBackwardMotionVectorsPlaneID : String := "Backward"

/-- Modelled from the spec: opaque plane identifier constant
`kNatronForwardMotionVectorsPlaneID` from ofxNatron.h (not under src/). -/
def kNatronForwardMotionVectorsPlaneID : String := "Forward"

/-- Modelled from the spec: opaque plane identifier constant
`kNatronDisparityLeftPlaneID` from ofxNatron.h (not under src/). -/
def kNatronDisparityLeftPlaneID : String := "DisparityLeft"

/-- Modelled from the spec: opaque plane identifier constant
`kNatronDisparityRightPlaneID` from ofxNatron.h (not under src/). -/
def kNatronDisparityRightPlaneID : String := "DisparityRight"

/-- Modelled from the spec: opaque components label constant
`kNatronMotionComponentsLabel` from ofxNatron.h (not under src/). -/
def kNatronMotionComponentsLabel : String := "Motion"

/-- Modelled from the spec: opaque components label constant
`kNatronDisparityComponentsLabel` from ofxNatron.h (not under src/). -/
def kNatronDisparityComponentsLabel : String := "Disparity"

/-- The pair of prefix plug-in constraints used by every name rule:
`addPluginMatch(m, "fr.inria.")` / `addPluginMatch(m, "net.sf.openfx.")`,
each with its `func` overridden to `startsWith` and no version bounds. -/
def inriaOrOpenfxPlugins : List PluginMatch :=
  [⟨"fr.inria.", -1, -1, -1, -1, .startsWithPtr⟩,
   ⟨"net.sf.openfx.", -1, -1, -1, -1, .startsWithPtr⟩]

/-- The name-rule registry, in the construction order of the C++ class
`KnobNameFilters` (lines 226-340): four rules, one per RGBA process
channel, each with two exact-name alternatives gated on the two plug-in
prefixes, and a host-version upper bound of 2.2.99. -/
def knobNameFilters : List KnobNameFilter :=
  [⟨[⟨inriaOrOpenfxPlugins, ⟨"r", .equalsCaseSensitivePtr⟩⟩,
     ⟨inriaOrOpenfxPlugins, ⟨"doRed", .equalsCaseSensitivePtr⟩⟩],
    kNatronOfxParamProcessR, ⟨-1, -1, -1⟩, ⟨2, 2, 99⟩⟩,
   ⟨[⟨inriaOrOpenfxPlugins, ⟨"g", .equalsCaseSensitivePtr⟩⟩,
     ⟨inriaOrOpenfxPlugins, ⟨"doGreen", .equalsCaseSensitivePtr⟩⟩],
    kNatronOfxParamProcessG, ⟨-1, -1, -1⟩, ⟨2, 2, 99⟩⟩,
   ⟨[⟨inriaOrOpenfxPlugins, ⟨"b", .equalsCaseSensitivePtr⟩⟩,
     ⟨inriaOrOpenfxPlugins, ⟨"doBlue", .equalsCaseSensitivePtr⟩⟩],
    kNatronOfxParamProcessB, ⟨-1, -1, -1⟩, ⟨2, 2, 99⟩⟩,
   ⟨[⟨inriaOrOpenfxPlugins, ⟨"a", .equalsCaseSensitivePtr⟩⟩,
     ⟨inriaOrOpenfxPlugins, ⟨"doAlpha", .equalsCaseSensitivePtr⟩⟩],
    kNatronOfxParamProcessA, ⟨-1, -1, -1⟩, ⟨2, 2, 99⟩⟩]

/-- The two parameter-name alternatives shared by the plane option rules:
exact "outputChannels" and suffix "channels", with no plug-in constraint. -/
def outputOrChannelsFilters : List KnobMatch :=
  [⟨[], ⟨"outputChannels", .equalsCaseSensitivePtr⟩⟩,
   ⟨[], ⟨"channels", .endsWithPtr⟩⟩]

/-- The alternatives of the C++ local `channelsFilterBase`
(lines 402-434), shared by the twelve per-channel option rules:
prefix "maskChannel"; exact "premultChannel"; exact "channelU"/"channelV"
restricted to IDistort and STMap (default case-insensitive comparison);
exact "outputR"/"outputG"/"outputB"/"outputA" restricted to ShufflePlugin
with plug-in major version at least 2. -/
def channelsFilterBaseFilters : List KnobMatch :=
  [⟨[], ⟨"maskChannel", .startsWithPtr⟩⟩,
   ⟨[], ⟨"premultChannel", .equalsCaseSensitivePtr⟩⟩,
   ⟨[⟨"net.sf.openfx.IDistort", -1, -1, -1, -1, .equalsCaseInsensitivePtr⟩,
     ⟨"net.sf.openfx.STMap", -1, -1, -1, -1, .equalsCaseInsensitivePtr⟩],
    ⟨"channelU", .equalsCaseSensitivePtr⟩⟩,
   ⟨[⟨"net.sf.openfx.IDistort", -1, -1, -1, -1, .equalsCaseInsensitivePtr⟩,
     ⟨"net.sf.openfx.STMap", -1, -1, -1, -1, .equalsCaseInsensitivePtr⟩],
    ⟨"channelV", .equalsCaseSensitivePtr⟩⟩,
   ⟨[⟨"net.sf.openfx.ShufflePlugin", 2, -1, -1, -1, .equalsCaseInsensitivePtr⟩],
    ⟨"outputR", .equalsCaseSensitivePtr⟩⟩,
   ⟨[⟨"net.sf.openfx.ShufflePlugin", 2, -1, -1, -1, .equalsCaseInsensitivePtr⟩],
    ⟨"outputG", .equalsCaseSensitivePtr⟩⟩,
   ⟨[⟨"net.sf.openfx.ShufflePlugin", 2, -1, -1, -1, .equalsCaseInsensitivePtr⟩],
    ⟨"outputB", .equalsCaseSensitivePtr⟩⟩,
   ⟨[⟨"net.sf.openfx.ShufflePlugin", 2, -1, -1, -1, .equalsCaseInsensitivePtr⟩],
    ⟨"outputA", .equalsCaseSensitivePtr⟩⟩]

/-- The single "fr.inria." prefix plug-in constraint used by the
frameRange and bitDepth option rules. -/
def inriaOnlyPlugins : List PluginMatch :=
  [⟨"fr.inria.", -1, -1, -1, -1, .startsWithPtr⟩]

/-- The option-rule registry, in the construction order of the C++ class
`KnobChoiceOptionFilters` (lines 343-561): five plane rules, twelve
per-channel rules derived from `channelsFilterBase`, the Write frameRange
rule and the two Write bitDepth rules. -/
def knobChoiceOptionFilters : List KnobChoiceOptionFilter :=
  [⟨outputOrChannelsFilters,
    [⟨"RGBA", .equalsCaseInsensitivePtr⟩, ⟨"RGB", .equalsCaseInsensitivePtr⟩,
     ⟨"Alpha", .equalsCaseInsensitivePtr⟩, ⟨"Color.RGBA", .equalsCaseInsensitivePtr⟩,
     ⟨"Color.RGB", .equalsCaseInsensitivePtr⟩, ⟨"Color.Alpha", .equalsCaseInsensitivePtr⟩],
    kNatronColorPlaneID, ⟨-1, -1, -1⟩, ⟨2, 2, 99⟩⟩,
   ⟨outputOrChannelsFilters, [⟨"Backward.Motion", .equalsCaseInsensitivePtr⟩],
    kNatronBackwardMotionVectorsPlaneID ++ "." ++ kNatronMotionComponentsLabel,
    ⟨-1, -1, -1⟩, ⟨2, 2, 99⟩⟩,
   ⟨outputOrChannelsFilters, [⟨"Forward.Motion", .equalsCaseInsensitivePtr⟩],
    kNatronForwardMotionVectorsPlaneID ++ "." ++ kNatronMotionComponentsLabel,
    ⟨-1, -1, -1⟩, ⟨2, 2, 99⟩⟩,
   ⟨outputOrChannelsFilters, [⟨"DisparityLeft.Disparity", .equalsCaseInsensitivePtr⟩],
    kNatronDisparityLeftPlaneID ++ "." ++ kNatronDisparityComponentsLabel,
    ⟨-1, -1, -1⟩, ⟨2, 2, 99⟩⟩,
   ⟨outputOrChannelsFilters, [⟨"DisparityRight.Disparity", .equalsCaseInsensitivePtr⟩],
    kNatronDisparityRightPlaneID ++ "." ++ kNatronDisparityComponentsLabel,
    ⟨-1, -1, -1⟩, ⟨2, 2, 99⟩⟩,
   ⟨channelsFilterBaseFilters,
    [⟨"RGBA.R", .equalsCaseInsensitivePtr⟩, ⟨"UV.r", .equalsCaseInsensitivePtr⟩,
     ⟨"red", .equalsCaseInsensitivePtr⟩, ⟨"r", .equalsCaseInsensitivePtr⟩],
    kNatronColorPlaneID ++ ".R", ⟨-1, -1, -1⟩, ⟨2, 2, 99⟩⟩,
   ⟨channelsFilterBaseFilters,
    [⟨"RGBA.G", .equalsCaseInsensitivePtr⟩, ⟨"UV.g", .equalsCaseInsensitivePtr⟩,
     ⟨"green", .equalsCaseInsensitivePtr⟩, ⟨"g", .equalsCaseInsensitivePtr⟩],
    kNatronColorPlaneID ++ ".G", ⟨-1, -1, -1⟩, ⟨2, 2, 99⟩⟩,
   ⟨channelsFilterBaseFilters,
    [⟨"RGBA.B", .equalsCaseInsensitivePtr⟩, ⟨"UV.b", .equalsCaseInsensitivePtr⟩,
     ⟨"blue", .equalsCaseInsensitivePtr⟩, ⟨"b", .equalsCaseInsensitivePtr⟩],
    kNatronColorPlaneID ++ ".B", ⟨-1, -1, -1⟩, ⟨2, 2, 99⟩⟩,
   ⟨channelsFilterBaseFilters,
    [⟨"RGBA.A", .equalsCaseInsensitivePtr⟩, ⟨"UV.a", .equalsCaseInsensitivePtr⟩,
     ⟨"alpha", .equalsCaseInsensitivePtr⟩, ⟨"a", .equalsCaseInsensitivePtr⟩],
    kNatronColorPlaneID ++ ".A", ⟨-1, -1, -1⟩, ⟨2, 2, 99⟩⟩,
   ⟨channelsFilterBaseFilters, [⟨"A.r", .equalsCaseInsensitivePtr⟩],
    "A." ++ kNatronColorPlaneID ++ ".R", ⟨-1, -1, -1⟩, ⟨2, 2, 99⟩⟩,
   ⟨channelsFilterBaseFilters, [⟨"A.g", .equalsCaseInsensitivePtr⟩],
    "A." ++ kNatronColorPlaneID ++ ".G", ⟨-1, -1, -1⟩, ⟨2, 2, 99⟩⟩,
   ⟨channelsFilterBaseFilters, [⟨"A.b", .equalsCaseInsensitivePtr⟩],
    "A." ++ kNatronColorPlaneID ++ ".b", ⟨-1, -1, -1⟩, ⟨2, 2, 99⟩⟩,
   ⟨channelsFilterBaseFilters, [⟨"A.a", .equalsCaseInsensitivePtr⟩],
    "A." ++ kNatronColorPlaneID ++ ".A", ⟨-1, -1, -1⟩, ⟨2, 2, 99⟩⟩,
   ⟨channelsFilterBaseFilters, [⟨"B.r", .equalsCaseInsensitivePtr⟩],
    "B." ++ kNatronColorPlaneID ++ ".R", ⟨-1, -1, -1⟩, ⟨2, 2, 99⟩⟩,
   ⟨channelsFilterBaseFilters, [⟨"B.g", .equalsCaseInsensitivePtr⟩],
    "B." ++ kNatronColorPlaneID ++ ".G", ⟨-1, -1, -1⟩, ⟨2, 2, 99⟩⟩,
   ⟨channelsFilterBaseFilters, [⟨"B.b", .equalsCaseInsensitivePtr⟩],
    "B." ++ kNatronColorPlaneID ++ ".B", ⟨-1, -1, -1⟩, ⟨2, 2, 99⟩⟩,
   ⟨channelsFilterBaseFilters, [⟨"B.a", .equalsCaseInsensitivePtr⟩],
    "B." ++ kNatronColorPlaneID ++ ".A", ⟨-1, -1, -1⟩, ⟨2, 2, 99⟩⟩,
   ⟨[⟨inriaOnlyPlugins, ⟨"frameRange", .equalsCaseSensitivePtr⟩⟩],
    [⟨"Timeline bounds", .equalsCaseInsensitivePtr⟩],
    "project", ⟨-1, -1, -1⟩, ⟨1, -1, -1⟩⟩,
   ⟨[⟨inriaOnlyPlugins, ⟨"bitDepth", .equalsCaseSensitivePtr⟩⟩],
    [⟨"8i", .equalsCaseInsensitivePtr⟩],
    "8u", ⟨-1, -1, -1⟩, ⟨-1, -1, -1⟩⟩,
   ⟨[⟨inriaOnlyPlugins, ⟨"bitDepth", .equalsCaseSensitivePtr⟩⟩],
    [⟨"16i", .equalsCaseInsensitivePtr⟩],
    "16u", ⟨-1, -1, -1⟩, ⟨-1, -1, -1⟩⟩]

/-- The lower host-version guard of `matchKnobFilterInternal`
(lines 574-586): true exactly when that `if` takes its `return false`. -/
def natronVersionMinFails (vMin : NatronVersionMatch) (vM vm vr : Int) : Bool :=
  decide (vM ≠ -1 ∧ vMin.vMajor ≠ -1 ∧
    (vM < vMin.vMajor ∨
      (vMin.vMinor ≠ -1 ∧
        ((vM = vMin.vMajor ∧ vm < vMin.vMinor) ∨
          (vMin.vRev ≠ -1 ∧ vM = vMin.vMajor ∧ vm = vMin.vMinor ∧ vr < vMin.vRev)))))

/-- The upper host-version guard of `matchKnobFilterInternal`
(lines 587-599). -/
def natronVersionMaxFails (vMax : NatronVersionMatch) (vM vm vr : Int) : Bool :=
  decide (vM ≠ -1 ∧ vMax.vMajor ≠ -1 ∧
    (vM > vMax.vMajor ∨
      (vMax.vMinor ≠ -1 ∧
        ((vM = vMax.vMajor ∧ vm > vMax.vMinor) ∨
          (vMax.vRev ≠ -1 ∧ vM = vMax.vMajor ∧ vm = vMax.vMinor ∧ vr > vMax.vRev)))))

/-- The lower plug-in-version guard inside the constraint loop
(lines 611-619). -/
def pluginVersionMinFails (p : PluginMatch) (pM pm : Int) : Bool :=
  decide (pM ≠ -1 ∧ p.pluginVersionMajorMin ≠ -1 ∧
    (pM < p.pluginVersionMajorMin ∨
      (p.pluginVersionMinorMin ≠ -1 ∧ pM = p.pluginVersionMajorMin ∧
        pm < p.pluginVersionMinorMin)))

/-- The upper plug-in-version guard inside the constraint loop
(lines 621-628). -/
def pluginVersionMaxFails (p : PluginMatch) (pM pm : Int) : Bool :=
  decide (pM ≠ -1 ∧ p.pluginVersionMajorMax ≠ -1 ∧
    (pM > p.pluginVersionMajorMax ∨
      (p.pluginVersionMinorMax ≠ -1 ∧ pM = p.pluginVersionMajorMax ∧
        pm > p.pluginVersionMinorMax)))

/-- Outcome of the inner loop over a `KnobMatch`'s plug-in constraints
(lines 607-632): the loop either finds a matching constraint and breaks,
exhausts the list, or hits `return false` (identifier matched but a
plug-in-version guard failed), which aborts the whole rule. -/
inductive PluginScanRes where
  | noMatch
  | found
  | abortRule
deriving DecidableEq

/-- The inner loop over the plug-in constraints of one alternative,
faithful to lines 607-632: a constraint whose identifier does not match is
skipped; if the identifier matches and a version guard fails the whole
rule is aborted; otherwise the constraint matches and the loop breaks. -/
def scanPluginList (pid : String) (pM pm : Int) : List PluginMatch → PluginScanRes
  | [] => .noMatch
  | p :: rest =>
    if p.func.call pid p.pluginID then
      if pluginVersionMinFails p pM pm then .abortRule
      else if pluginVersionMaxFails p pM pm then .abortRule
      else .found
    else scanPluginList pid pM pm rest

/-- The outer loop over a rule's alternatives (lines 603-641): an
alternative with plug-in constraints first runs the constraint loop
(`abortRule` makes the whole rule fail, `noMatch` skips the alternative),
then the name matcher decides; the first name match returns true. -/
def scanKnobMatches (nm pid : String) (pM pm : Int) : List KnobMatch → Bool
  | [] => false
  | m :: rest =>
    if m.plugin.isEmpty then
      if m.filter.func.call nm m.filter.nameToMatch then true
      else scanKnobMatches nm pid pM pm rest
    else
      match scanPluginList pid pM pm m.plugin with
      | .abortRule => false
      | .noMatch => scanKnobMatches nm pid pM pm rest
      | .found =>
        if m.filter.func.call nm m.filter.nameToMatch then true
        else scanKnobMatches nm pid pM pm rest

/-- Source function `matchKnobFilterInternal` (lines 567-647), parameterized by the
fields the template reads from either filter kind. -/
def matchKnobFilterInternal (filters : List KnobMatch)
    (vMin vMax : NatronVersionMatch) (nm pid : String)
    (pM pm vM vm vr : Int) : Bool :=
  if natronVersionMinFails vMin vM vm vr then false
  else if natronVersionMaxFails vMax vM vm vr then false
  else if filters.isEmpty then true
  else scanKnobMatches nm pid pM pm filters

/-- The loop of `filterKnobNameCompat` (lines 651-666) over an explicit
rule list: first matching rule rewrites the name and stops. -/
def filterKnobNameCompatList (pid : String) (pM pm vM vm vr : Int)
    (nm : String) : List KnobNameFilter → Bool × String
  | [] => (false, nm)
  | f :: rest =>
    if matchKnobFilterInternal f.filters f.natronVersionMin f.natronVersionMax
        nm pid pM pm vM vm vr then
      (true, f.replacement)
    else filterKnobNameCompatList pid pM pm vM vm vr nm rest

/-- Source function `filterKnobNameCompat`: the pair is (return value, final value of
the `name` in-out parameter). -/
def filterKnobNameCompat (pid : String) (pM pm vM vm vr : Int)
    (nm : String) : Bool × String :=
  filterKnobNameCompatList pid pM pm vM vm vr nm knobNameFilters

/-- The option-pattern loop of `filterKnobChoiceOptionCompat`
(lines 679-684): true when some option pattern matches the value. -/
def optionFiltersMatch (value : String) (opts : List FilterMatcher) : Bool :=
  opts.any fun m => m.func.call value m.nameToMatch

/-- The loop of `filterKnobChoiceOptionCompat` (lines 668-689) over an
explicit rule list: a rule whose name gate matches scans its option
patterns; the first pattern match rewrites the value and stops; otherwise
the scan continues with the next rule. -/
def filterKnobChoiceOptionCompatList (pid : String) (pM pm vM vm vr : Int)
    (paramName value : String) : List KnobChoiceOptionFilter → Bool × String
  | [] => (false, value)
  | f :: rest =>
    if matchKnobFilterInternal f.filters f.natronVersionMin f.natronVersionMax
        paramName pid pM pm vM vm vr then
      if optionFiltersMatch value f.optionFilters then (true, f.replacement)
      else filterKnobChoiceOptionCompatList pid pM pm vM vm vr paramName value rest
    else filterKnobChoiceOptionCompatList pid pM pm vM vm vr paramName value rest

/-- Source function `filterKnobChoiceOptionCompat`: the pair is (return value, final
value of the option-value in-out parameter). -/
def filterKnobChoiceOptionCompat (pid : String) (pM pm vM vm vr : Int)
    (paramName value : String) : Bool × String :=
  filterKnobChoiceOptionCompatList pid pM pm vM vm vr paramName value
    knobChoiceOptionFilters

/-!
Reference semantics written from the spec's words (section 4.3): the
plugin gate of an alternative is a pure OR over its constraints, a
constraint matching when its identifier matcher succeeds and its version
range (if present) admits the plugin version.  These definitions exist to
be compared with the source-derived engine above; they are not translated
from the code.
-/

/-- Spec 4.3: one constraint matches iff its identifier StringMatch
succeeds on the plugin ID and the plugin version is in range. -/
def pluginMatchOkSpec (p : PluginMatch) (pid : String) (pM pm : Int) : Bool :=
  p.func.call pid p.pluginID && !pluginVersionMinFails p pM pm &&
    !pluginVersionMaxFails p pM pm

/-- Spec 4.3: empty constraint list always passes, otherwise a pure OR
over the constraints. -/
def pluginListMatchSpec (l : List PluginMatch) (pid : String) (pM pm : Int) : Bool :=
  l.isEmpty || l.any fun p => pluginMatchOkSpec p pid pM pm

/-- Spec 4.4 step 2: an alternative matches iff its plugin gate passes
and its name matcher succeeds. -/
def knobMatchOkSpec (m : KnobMatch) (nm pid : String) (pM pm : Int) : Bool :=
  pluginListMatchSpec m.plugin pid pM pm &&
    m.filter.func.call nm m.filter.nameToMatch

/-- Spec 4.4 step 2: the rule's alternatives are OR'ed together. -/
def scanKnobMatchesSpec (nm pid : String) (pM pm : Int) (l : List KnobMatch) : Bool :=
  l.any fun m => knobMatchOkSpec m nm pid pM pm

/-- Spec-side analogue of `matchKnobFilterInternal`: identical version
gates, but the alternatives are scanned with the pure-OR plugin gate. -/
def matchKnobFilterInternalSpec (filters : List KnobMatch)
    (vMin vMax : NatronVersionMatch) (nm pid : String)
    (pM pm vM vm vr : Int) : Bool :=
  if natronVersionMinFails vMin vM vm vr then false
  else if natronVersionMaxFails vMax vM vm vr then false
  else if filters.isEmpty then true
  else scanKnobMatchesSpec nm pid pM pm filters

/-- Spec-side name lookup over an explicit rule list. -/
def filterKnobNameCompatSpecList (pid : String) (pM pm vM vm vr : Int)
    (nm : String) : List KnobNameFilter → Bool × String
  | [] => (false, nm)
  | f :: rest =>
    if matchKnobFilterInternalSpec f.filters f.natronVersionMin f.natronVersionMax
        nm pid pM pm vM vm vr then
      (true, f.replacement)
    else filterKnobNameCompatSpecList pid pM pm vM vm vr nm rest

/-- Spec-side name lookup on the real registry. -/
def filterKnobNameCompatSpec (pid : String) (pM pm vM vm vr : Int)
    (nm : String) : Bool × String :=
  filterKnobNameCompatSpecList pid pM pm vM vm vr nm knobNameFilters

/-- Spec-side option lookup over an explicit rule list. -/
def filterKnobChoiceOptionCompatSpecList (pid : String) (pM pm vM vm vr : Int)
    (paramName value : String) : List KnobChoiceOptionFilter → Bool × String
  | [] => (false, value)
  | f :: rest =>
    if matchKnobFilterInternalSpec f.filters f.natronVersionMin f.natronVersionMax
        paramName pid pM pm vM vm vr then
      if optionFiltersMatch value f.optionFilters then (true, f.replacement)
      else filterKnobChoiceOptionCompatSpecList pid pM pm vM vm vr paramName value rest
    else filterKnobChoiceOptionCompatSpecList pid pM pm vM vm vr paramName value rest

/-- Spec-side option lookup on the real registry. -/
def filterKnobChoiceOptionCompatSpec (pid : String) (pM pm vM vm vr : Int)
    (paramName value : String) : Bool × String :=
  filterKnobChoiceOptionCompatSpecList pid pM pm vM vm vr paramName value
    knobChoiceOptionFilters

/-!  Helper lemmas relating the source engine to the pure-OR reference. -/

/-- A constraint with no lower plug-in-version bound never fails it. -/
lemma pluginVersionMinFails_of_none {p : PluginMatch}
    (h : p.pluginVersionMajorMin = -1) (pM pm : Int) :
    pluginVersionMinFails p pM pm = false := by
  simp [pluginVersionMinFails, h]

/-- A constraint with no upper plug-in-version bound never fails it. -/
lemma pluginVersionMaxFails_of_none {p : PluginMatch}
    (h : p.pluginVersionMajorMax = -1) (pM pm : Int) :
    pluginVersionMaxFails p pM pm = false := by
  simp [pluginVersionMaxFails, h]

/-- When the constraint loop does not abort the rule, it finds a match
exactly when the pure-OR gate accepts some constraint. -/
lemma scanPluginList_of_ne_abort {pid : String} {pM pm : Int} :
    ∀ {l : List PluginMatch}, scanPluginList pid pM pm l ≠ .abortRule →
      scanPluginList pid pM pm l =
        (if l.any (fun p => pluginMatchOkSpec p pid pM pm) then .found else .noMatch)
  | [], _ => by simp [scanPluginList]
  | p :: rest, h => by
    by_cases hid : p.func.call pid p.pluginID = true
    · by_cases hmin : pluginVersionMinFails p pM pm = true
      · exact absurd (by simp [scanPluginList, hid, hmin]) h
      · by_cases hmax : pluginVersionMaxFails p pM pm = true
        · exact absurd (by simp [scanPluginList, hid, hmin, hmax]) h
        · simp [scanPluginList, hid, hmin, hmax, pluginMatchOkSpec,
            Bool.not_eq_true _ ▸ hmin]
    · have hrest : scanPluginList pid pM pm rest ≠ .abortRule := by
        intro hc
        exact h (by simp [scanPluginList, hid, hc])
      have := scanPluginList_of_ne_abort hrest
      simp [scanPluginList, hid, pluginMatchOkSpec, this]

/-- When no alternative's constraint loop aborts, the source scan agrees
with the pure-OR reference scan. -/
lemma scanKnobMatches_eq_spec_of_ne_abort {nm pid : String} {pM pm : Int} :
    ∀ {l : List KnobMatch},
      (∀ m ∈ l, scanPluginList pid pM pm m.plugin ≠ .abortRule) →
      scanKnobMatches nm pid pM pm l = scanKnobMatchesSpec nm pid pM pm l
  | [], _ => by simp [scanKnobMatches, scanKnobMatchesSpec]
  | m :: rest, h => by
    have hm := h m (List.mem_cons_self m rest)
    have hrest : scanKnobMatches nm pid pM pm rest = scanKnobMatchesSpec nm pid pM pm rest :=
      scanKnobMatches_eq_spec_of_ne_abort
        (fun m' hm' => h m' (List.mem_cons_of_mem m hm'))
    by_cases hemp : m.plugin.isEmpty
    · by_cases hname : m.filter.func.call nm m.filter.nameToMatch = true <;>
        simp [scanKnobMatches, scanKnobMatchesSpec, knobMatchOkSpec,
          pluginListMatchSpec, hemp, hname, hrest]
    · rw [scanKnobMatches, if_neg (by simp [hemp]), scanPluginList_of_ne_abort hm]
      by_cases hany : m.plugin.any (fun p => pluginMatchOkSpec p pid pM pm) = true
      · by_cases hname : m.filter.func.call nm m.filter.nameToMatch = true <;>
          simp [scanKnobMatchesSpec, knobMatchOkSpec, pluginListMatchSpec,
            hemp, hany, hname, hrest]
      · simp [scanKnobMatchesSpec, knobMatchOkSpec, pluginListMatchSpec,
          hemp, hany, hrest]

/-- A version-free constraint list never aborts the rule. -/
lemma scanPluginList_ne_abort_of_versionFree {pid : String} {pM pm : Int} :
    ∀ {l : List PluginMatch},
      (∀ p ∈ l, p.pluginVersionMajorMin = -1 ∧ p.pluginVersionMajorMax = -1) →
      scanPluginList pid pM pm l ≠ .abortRule
  | [], _ => by simp [scanPluginList]
  | p :: rest, h => by
    have hp := h p (List.mem_cons_self p rest)
    have hrest : scanPluginList pid pM pm rest ≠ .abortRule :=
      scanPluginList_ne_abort_of_versionFree
        (fun p' hp' => h p' (List.mem_cons_of_mem p hp'))
    by_cases hid : p.func.call pid p.pluginID = true
    · simp [scanPluginList, hid, pluginVersionMinFails_of_none hp.1,
        pluginVersionMaxFails_of_none hp.2]
    · simpa [scanPluginList, hid] using hrest

/-- Source scan and reference scan agree on any list of version-free
alternatives. -/
lemma scanKnobMatches_eq_spec_of_versionFree {nm pid : String} {pM pm : Int}
    {l : List KnobMatch}
    (h : ∀ m ∈ l, ∀ p ∈ m.plugin,
      p.pluginVersionMajorMin = -1 ∧ p.pluginVersionMajorMax = -1) :
    scanKnobMatches nm pid pM pm l = scanKnobMatchesSpec nm pid pM pm l :=
  scanKnobMatches_eq_spec_of_ne_abort
    (fun m hm => scanPluginList_ne_abort_of_versionFree (h m hm))

/-- Case-insensitive equality holds exactly when the case-folded keys
coincide. -/
lemma equalsStringCaseInsensitive_eq_true {s t : String} :
    equalsStringCaseInsensitive s t = true ↔ lowerKey s = lowerKey t := by
  simp [equalsStringCaseInsensitive]

/-- A plugin ID cannot be case-insensitively equal to two strings with
different case-folded keys. -/
lemma equalsStringCaseInsensitive_eq_false_of {pid a b : String}
    (hab : lowerKey a ≠ lowerKey b)
    (h : equalsStringCaseInsensitive pid a = true) :
    equalsStringCaseInsensitive pid b = false := by
  rw [Bool.eq_false_iff]
  intro hc
  exact hab ((equalsStringCaseInsensitive_eq_true.mp h).symm.trans
    (equalsStringCaseInsensitive_eq_true.mp hc))

/-- On the shared `channelsFilterBase` alternatives the source scan and
the pure-OR reference scan agree for every input, including the inputs on
which the constraint loop aborts the rule (ShufflePlugin with a failing
major-version bound): every alternative after the aborting one carries the
same failing constraint, so the pure OR also rejects the rule. -/
lemma scanKnobMatches_channelsBase (nm pid : String) (pM pm : Int) :
    scanKnobMatches nm pid pM pm channelsFilterBaseFilters =
      scanKnobMatchesSpec nm pid pM pm channelsFilterBaseFilters := by
  by_cases hSh : equalsStringCaseInsensitive pid "net.sf.openfx.ShufflePlugin" = true
  · by_cases hVmin : pluginVersionMinFails
        ⟨"net.sf.openfx.ShufflePlugin", 2, -1, -1, -1, .equalsCaseInsensitivePtr⟩
        pM pm = true
    · -- the aborting case: the identifier matches but the version bound fails
      have hID : equalsStringCaseInsensitive pid "net.sf.openfx.IDistort" = false :=
        equalsStringCaseInsensitive_eq_false_of (by decide) hSh
      have hST : equalsStringCaseInsensitive pid "net.sf.openfx.STMap" = false :=
        equalsStringCaseInsensitive_eq_false_of (by decide) hSh
      simp only [channelsFilterBaseFilters, scanKnobMatches, scanKnobMatchesSpec,
        scanPluginList, StringFuncPtr.call, knobMatchOkSpec, pluginListMatchSpec,
        pluginMatchOkSpec, List.any_cons, List.any_nil, List.isEmpty_cons,
        List.isEmpty_nil, hSh, hID, hST, hVmin]
      cases hn1 : startsWith nm "maskChannel" <;>
        cases hn2 : equalsStringCaseSensitive nm "premultChannel" <;>
          simp [hn1, hn2]
    · -- identifier matches and the version bounds pass: no abort
      apply scanKnobMatches_eq_spec_of_ne_abort
      intro m hm
      simp only [channelsFilterBaseFilters, List.mem_cons, List.not_mem_nil,
        or_false] at hm
      rcases hm with rfl | rfl | rfl | rfl | rfl | rfl | rfl | rfl <;>
        first
          | exact scanPluginList_ne_abort_of_versionFree (by decide)
          | simp [scanPluginList, StringFuncPtr.call, hSh, hVmin,
              pluginVersionMaxFails]
  · -- the ShufflePlugin identifier does not match: no abort
    apply scanKnobMatches_eq_spec_of_ne_abort
    intro m hm
    simp only [channelsFilterBaseFilters, List.mem_cons, List.not_mem_nil,
      or_false] at hm
    rcases hm with rfl | rfl | rfl | rfl | rfl | rfl | rfl | rfl <;>
      first
        | exact scanPluginList_ne_abort_of_versionFree (by decide)
        | simp [scanPluginList, StringFuncPtr.call, hSh]

/-- Equal alternative scans give equal rule matches. -/
lemma matchKnobFilterInternal_eq_spec_of_scan {filters : List KnobMatch}
    {vMin vMax : NatronVersionMatch} {nm pid : String} {pM pm vM vm vr : Int}
    (h : scanKnobMatches nm pid pM pm filters = scanKnobMatchesSpec nm pid pM pm filters) :
    matchKnobFilterInternal filters vMin vMax nm pid pM pm vM vm vr =
      matchKnobFilterInternalSpec filters vMin vMax nm pid pM pm vM vm vr := by
  simp only [matchKnobFilterInternal, matchKnobFilterInternalSpec, h]

/-- Every name rule of the registry matches exactly as the pure-OR
reference prescribes: all its plug-in constraints are version-free. -/
lemma knobNameFilter_match_eq_spec :
    ∀ f ∈ knobNameFilters, ∀ (nm pid : String) (pM pm vM vm vr : Int),
      matchKnobFilterInternal f.filters f.natronVersionMin f.natronVersionMax
          nm pid pM pm vM vm vr =
        matchKnobFilterInternalSpec f.filters f.natronVersionMin f.natronVersionMax
          nm pid pM pm vM vm vr := by
  intro f hf nm pid pM pm vM vm vr
  apply matchKnobFilterInternal_eq_spec_of_scan
  simp only [knobNameFilters, List.mem_cons, List.not_mem_nil, or_false] at hf
  rcases hf with rfl | rfl | rfl | rfl <;>
    exact scanKnobMatches_eq_spec_of_versionFree (by decide)

/-- Every option rule of the registry matches exactly as the pure-OR
reference prescribes: its alternatives are either version-free or the
shared `channelsFilterBase` list handled above. -/
lemma knobChoiceOptionFilter_match_eq_spec :
    ∀ f ∈ knobChoiceOptionFilters, ∀ (nm pid : String) (pM pm vM vm vr : Int),
      matchKnobFilterInternal f.filters f.natronVersionMin f.natronVersionMax
          nm pid pM pm vM vm vr =
        matchKnobFilterInternalSpec f.filters f.natronVersionMin f.natronVersionMax
          nm pid pM pm vM vm vr := by
  intro f hf nm pid pM pm vM vm vr
  apply matchKnobFilterInternal_eq_spec_of_scan
  simp only [knobChoiceOptionFilters, List.mem_cons, List.not_mem_nil, or_false] at hf
  rcases hf with rfl | rfl | rfl | rfl | rfl | rfl | rfl | rfl | rfl | rfl |
    rfl | rfl | rfl | rfl | rfl | rfl | rfl | rfl | rfl | rfl <;>
    first
      | exact scanKnobMatches_channelsBase nm pid pM pm
      | exact scanKnobMatches_eq_spec_of_versionFree (by decide)

/-- Pointwise equal rule matchers give equal name lookups. -/
lemma filterKnobNameCompatList_eq_spec {pid : String} {pM pm vM vm vr : Int}
    {nm : String} :
    ∀ {rules : List KnobNameFilter},
      (∀ f ∈ rules,
        matchKnobFilterInternal f.filters f.natronVersionMin f.natronVersionMax
            nm pid pM pm vM vm vr =
          matchKnobFilterInternalSpec f.filters f.natronVersionMin f.natronVersionMax
            nm pid pM pm vM vm vr) →
      filterKnobNameCompatList pid pM pm vM vm vr nm rules =
        filterKnobNameCompatSpecList pid pM pm vM vm vr nm rules
  | [], _ => rfl
  | f :: rest, h => by
    have hrest : filterKnobNameCompatList pid pM pm vM vm vr nm rest =
        filterKnobNameCompatSpecList pid pM pm vM vm vr nm rest :=
      filterKnobNameCompatList_eq_spec
        (fun f' hf' => h f' (List.mem_cons_of_mem f hf'))
    simp only [filterKnobNameCompatList, filterKnobNameCompatSpecList,
      h f (List.mem_cons_self f rest), hrest]

/-- Pointwise equal rule matchers give equal option lookups. -/
lemma filterKnobChoiceOptionCompatList_eq_spec {pid : String}
    {pM pm vM vm vr : Int} {paramName value : String} :
    ∀ {rules : List KnobChoiceOptionFilter},
      (∀ f ∈ rules,
        matchKnobFilterInternal f.filters f.natronVersionMin f.natronVersionMax
            paramName pid pM pm vM vm vr =
          matchKnobFilterInternalSpec f.filters f.natronVersionMin f.natronVersionMax
            paramName pid pM pm vM vm vr) →
      filterKnobChoiceOptionCompatList pid pM pm vM vm vr paramName value rules =
        filterKnobChoiceOptionCompatSpecList pid pM pm vM vm vr paramName value rules
  | [], _ => rfl
  | f :: rest, h => by
    have hrest : filterKnobChoiceOptionCompatList pid pM pm vM vm vr paramName value rest =
        filterKnobChoiceOptionCompatSpecList pid pM pm vM vm vr paramName value rest :=
      filterKnobChoiceOptionCompatList_eq_spec
        (fun f' hf' => h f' (List.mem_cons_of_mem f hf'))
    simp only [filterKnobChoiceOptionCompatList, filterKnobChoiceOptionCompatSpecList,
      h f (List.mem_cons_self f rest), hrest]

/-- The pure-OR gate only looks at membership, so it is invariant under
permutation of the constraint list. -/
lemma pluginListMatchSpec_perm {l l' : List PluginMatch} (h : l.Perm l')
    (pid : String) (pM pm : Int) :
    pluginListMatchSpec l pid pM pm = pluginListMatchSpec l' pid pM pm := by
  have hemp : l.isEmpty = l'.isEmpty := by
    cases l <;> cases l' <;> simp_all
  have hany : (l.any fun p => pluginMatchOkSpec p pid pM pm) =
      l'.any fun p => pluginMatchOkSpec p pid pM pm := by
    cases ha : l'.any fun p => pluginMatchOkSpec p pid pM pm
    · rw [List.any_eq_false] at ha ⊢
      intro x hx; exact ha x (h.mem_iff.mp hx)
    · rw [List.any_eq_true] at ha ⊢
      obtain ⟨x, hx, hfx⟩ := ha
      exact ⟨x, h.mem_iff.mpr hx, hfx⟩
  simp only [pluginListMatchSpec, hemp, hany]

/-- Shorthand for the rule-level match of a name rule, as invoked by
`filterKnobNameCompat` on rule f. -/
def nameRuleMatches (f : KnobNameFilter) (pid : String) (pM pm vM vm vr : Int)
    (nm : String) : Bool :=
  matchKnobFilterInternal f.filters f.natronVersionMin f.natronVersionMax
    nm pid pM pm vM vm vr

/-- Shorthand for the full match of an option rule, as invoked by
`filterKnobChoiceOptionCompat` on rule f: name gate and option pattern. -/
def optionRuleMatches (f : KnobChoiceOptionFilter) (pid : String)
    (pM pm vM vm vr : Int) (paramName value : String) : Bool :=
  matchKnobFilterInternal f.filters f.natronVersionMin f.natronVersionMax
      paramName pid pM pm vM vm vr &&
    optionFiltersMatch value f.optionFilters

/-- First-match characterization of the name lookup over any rule list:
when some rule matches, the result is the replacement of the earliest
matching rule, every earlier rule fails, and the lookup returns true. -/
lemma filterKnobNameCompatList_first {pid : String} {pM pm vM vm vr : Int}
    {nm : String} :
    ∀ {rules : List KnobNameFilter},
      (∃ f ∈ rules, nameRuleMatches f pid pM pm vM vm vr nm = true) →
      ∃ i : Fin rules.length,
        nameRuleMatches (rules.get i) pid pM pm vM vm vr nm = true ∧
        (∀ j : Fin rules.length, j.val < i.val →
          nameRuleMatches (rules.get j) pid pM pm vM vm vr nm = false) ∧
        filterKnobNameCompatList pid pM pm vM vm vr nm rules =
          (true, (rules.get i).replacement)
  | [], h => absurd h (by simp)
  | f :: rest, h => by
    by_cases hf : matchKnobFilterInternal f.filters f.natronVersionMin
        f.natronVersionMax nm pid pM pm vM vm vr = true
    · refine ⟨⟨0, by simp⟩, hf, ?_, ?_⟩
      · intro j hj
        exact absurd hj (by simp)
      · simp [filterKnobNameCompatList, hf]
    · have hrest : ∃ f' ∈ rest, nameRuleMatches f' pid pM pm vM vm vr nm = true := by
        rcases h with ⟨f', hf', hm⟩
        rcases List.mem_cons.mp hf' with rfl | hmem
        · exact absurd hm hf
        · exact ⟨f', hmem, hm⟩
      obtain ⟨i, h1, h2, h3⟩ := filterKnobNameCompatList_first hrest
      refine ⟨i.succ, by simpa using h1, ?_, ?_⟩
      · intro j hj
        rcases j with ⟨jv, hjv⟩
        cases jv with
        | zero =>
          simpa [nameRuleMatches] using Bool.eq_false_iff.mpr hf
        | succ j' =>
          have hj' : j' < i.val := Nat.lt_of_succ_lt_succ hj
          simpa using h2 ⟨j', Nat.lt_of_succ_lt_succ hjv⟩ hj'
      · simpa [filterKnobNameCompatList, hf] using h3

/-- Claim C3: filterKnobNameCompat walks the registry in registration
order with first match winning: whenever some rule matches, the earliest
matching rule's replacement is returned with true, all earlier rules
fail, and no later rule's replacement is produced. -/
theorem claim_C3 :
    ∀ (pid : String) (pM pm vM vm vr : Int) (nm : String),
      (∃ f ∈ knobNameFilters, nameRuleMatches f pid pM pm vM vm vr nm = true) →
      ∃ i : Fin knobNameFilters.length,
        nameRuleMatches (knobNameFilters.get i) pid pM pm vM vm vr nm = true ∧
        (∀ j : Fin knobNameFilters.length, j.val < i.val →
          nameRuleMatches (knobNameFilters.get j) pid pM pm vM vm vr nm = false) ∧
        filterKnobNameCompat pid pM pm vM vm vr nm =
          (true, (knobNameFilters.get i).replacement) :=
  fun _ _ _ _ _ _ _ h => filterKnobNameCompatList_first h

/-- Witness for C3: the "r" scenario matches some rule, and the lookup
result is the replacement of the earliest matching rule. -/
theorem claim_C3_witness :
    ∃ i : Fin knobNameFilters.length,
      nameRuleMatches (knobNameFilters.get i) "net.sf.openfx.Foo" 1 0 2 2 99 "r" = true ∧
      (∀ j : Fin knobNameFilters.length, j.val < i.val →
        nameRuleMatches (knobNameFilters.get j) "net.sf.openfx.Foo" 1 0 2 2 99 "r" = false) ∧
      filterKnobNameCompat "net.sf.openfx.Foo" 1 0 2 2 99 "r" =
        (true, (knobNameFilters.get i).replacement) :=
  claim_C3 "net.sf.openfx.Foo" 1 0 2 2 99 "r" (by decide)

/-- Claim C4: in filterKnobChoiceOptionCompat a rule whose name gate
matches rewrites with its replacement as soon as some option pattern
matches the value, and otherwise the lookup continues with the remaining
rules instead of returning false; the real entry point is exactly this
scan over the option registry. -/
theorem claim_C4 :
    (∀ (pid : String) (pM pm vM vm vr : Int) (paramName value : String),
      filterKnobChoiceOptionCompat pid pM pm vM vm vr paramName value =
        filterKnobChoiceOptionCompatList pid pM pm vM vm vr paramName value
          knobChoiceOptionFilters) ∧
    (∀ (f : KnobChoiceOptionFilter) (rest : List KnobChoiceOptionFilter)
        (pid : String) (pM pm vM vm vr : Int) (paramName value : String),
      matchKnobFilterInternal f.filters f.natronVersionMin f.natronVersionMax
          paramName pid pM pm vM vm vr = true →
      (optionFiltersMatch value f.optionFilters = true →
        filterKnobChoiceOptionCompatList pid pM pm vM vm vr paramName value
          (f :: rest) = (true, f.replacement)) ∧
      (optionFiltersMatch value f.optionFilters = false →
        filterKnobChoiceOptionCompatList pid pM pm vM vm vr paramName value
          (f :: rest) =
          filterKnobChoiceOptionCompatList pid pM pm vM vm vr paramName value rest)) := by
  refine ⟨fun _ _ _ _ _ _ _ _ => rfl, ?_⟩
  intro f rest pid pM pm vM vm vr paramName value hgate
  constructor
  · intro hopt
    simp [filterKnobChoiceOptionCompatList, hgate, hopt]
  · intro hopt
    simp [filterKnobChoiceOptionCompatList, hgate, hopt]

/-- Witness for C4: the Write bitDepth rule gate-matches "bitDepth" for a
"fr.inria." plug-in, no option pattern matches "RGBA", and the scan
continues with the rest of the list. -/
theorem claim_C4_witness :
    filterKnobChoiceOptionCompatList "fr.inria.openfx.WriteOIIO" (-1) (-1) 2 2 99
        "bitDepth" "RGBA"
        [⟨[⟨inriaOnlyPlugins, ⟨"bitDepth", .equalsCaseSensitivePtr⟩⟩],
          [⟨"8i", .equalsCaseInsensitivePtr⟩], "8u", ⟨-1, -1, -1⟩, ⟨-1, -1, -1⟩⟩] =
      filterKnobChoiceOptionCompatList "fr.inria.openfx.WriteOIIO" (-1) (-1) 2 2 99
        "bitDepth" "RGBA" [] :=
  (claim_C4.2 _ [] "fr.inria.openfx.WriteOIIO" (-1) (-1) 2 2 99 "bitDepth" "RGBA"
    (by decide)).2 (by decide)

/-- All-or-nothing characterization of the name lookup over any rule
list: either some rule matches and the result is (true, its replacement),
or no rule matches and the result is (false, the untouched input). -/
lemma filterKnobNameCompatList_total {pid : String} {pM pm vM vm vr : Int}
    {nm : String} :
    ∀ {rules : List KnobNameFilter},
      (∃ f ∈ rules, nameRuleMatches f pid pM pm vM vm vr nm = true ∧
        filterKnobNameCompatList pid pM pm vM vm vr nm rules =
          (true, f.replacement)) ∨
      (filterKnobNameCompatList pid pM pm vM vm vr nm rules = (false, nm) ∧
        ∀ f ∈ rules, nameRuleMatches f pid pM pm vM vm vr nm = false)
  | [] => Or.inr ⟨rfl, by simp⟩
  | f :: rest => by
    by_cases hf : matchKnobFilterInternal f.filters f.natronVersionMin
        f.natronVersionMax nm pid pM pm vM vm vr = true
    · exact Or.inl ⟨f, List.mem_cons_self f rest, hf,
        by simp [filterKnobNameCompatList, hf]⟩
    · have hstep : filterKnobNameCompatList pid pM pm vM vm vr nm (f :: rest) =
          filterKnobNameCompatList pid pM pm vM vm vr nm rest := by
        simp [filterKnobNameCompatList, hf]
      rcases @filterKnobNameCompatList_total pid pM pm vM vm vr nm rest with
        ⟨f', hf', hm, hres⟩ | ⟨hres, hall⟩
      · exact Or.inl ⟨f', List.mem_cons_of_mem f hf', hm, hstep ▸ hres⟩
      · refine Or.inr ⟨hstep ▸ hres, ?_⟩
        intro f' hf'
        rcases List.mem_cons.mp hf' with rfl | hmem
        · simpa [nameRuleMatches] using Bool.eq_false_iff.mpr hf
        · exact hall f' hmem

/-- All-or-nothing characterization of the option lookup over any rule
list. -/
lemma filterKnobChoiceOptionCompatList_total {pid : String}
    {pM pm vM vm vr : Int} {paramName value : String} :
    ∀ {rules : List KnobChoiceOptionFilter},
      (∃ f ∈ rules, optionRuleMatches f pid pM pm vM vm vr paramName value = true ∧
        filterKnobChoiceOptionCompatList pid pM pm vM vm vr paramName value rules =
          (true, f.replacement)) ∨
      (filterKnobChoiceOptionCompatList pid pM pm vM vm vr paramName value rules =
          (false, value) ∧
        ∀ f ∈ rules, optionRuleMatches f pid pM pm vM vm vr paramName value = false)
  | [] => Or.inr ⟨rfl, by simp⟩
  | f :: rest => by
    by_cases hf : optionRuleMatches f pid pM pm vM vm vr paramName value = true
    · have hf' := hf
      simp only [optionRuleMatches, Bool.and_eq_true] at hf'
      obtain ⟨hgate, hopt⟩ := hf'
      exact Or.inl ⟨f, List.mem_cons_self f rest, hf,
        by simp [filterKnobChoiceOptionCompatList, hgate, hopt]⟩
    · have hstep : filterKnobChoiceOptionCompatList pid pM pm vM vm vr
          paramName value (f :: rest) =
          filterKnobChoiceOptionCompatList pid pM pm vM vm vr paramName value rest := by
        by_cases hgate : matchKnobFilterInternal f.filters f.natronVersionMin
            f.natronVersionMax paramName pid pM pm vM vm vr = true
        · have hopt : optionFiltersMatch value f.optionFilters = false := by
            rcases Bool.eq_false_or_eq_true (optionFiltersMatch value f.optionFilters)
              with h' | h'
            · refine absurd ?_ hf
              simp only [optionRuleMatches, Bool.and_eq_true]
              exact ⟨hgate, h'⟩
            · exact h'
          simp [filterKnobChoiceOptionCompatList, hgate, hopt]
        · simp [filterKnobChoiceOptionCompatList, hgate]
      rcases @filterKnobChoiceOptionCompatList_total pid pM pm vM vm vr
        paramName value rest with
        ⟨f', hf', hm, hres⟩ | ⟨hres, hall⟩
      · exact Or.inl ⟨f', List.mem_cons_of_mem f hf', hm, hstep ▸ hres⟩
      · refine Or.inr ⟨hstep ▸ hres, ?_⟩
        intro f' hf'
        rcases List.mem_cons.mp hf' with rfl | hmem
        · exact Bool.eq_false_iff.mpr hf
        · exact hall f' hmem

/-- Claim C5: each lookup either rewrites its in-out string to a matching
rule's replacement and returns true, or returns false with the string
byte-identical to the input; in particular when no rule's gates are
satisfied the result is false with the string unchanged. -/
theorem claim_C5 :
    ∀ (pid : String) (pM pm vM vm vr : Int) (nm paramName value : String),
      ((∃ f ∈ knobNameFilters, nameRuleMatches f pid pM pm vM vm vr nm = true ∧
          filterKnobNameCompat pid pM pm vM vm vr nm = (true, f.replacement)) ∨
        (filterKnobNameCompat pid pM pm vM vm vr nm = (false, nm) ∧
          ∀ f ∈ knobNameFilters, nameRuleMatches f pid pM pm vM vm vr nm = false)) ∧
      ((∃ f ∈ knobChoiceOptionFilters,
          optionRuleMatches f pid pM pm vM vm vr paramName value = true ∧
          filterKnobChoiceOptionCompat pid pM pm vM vm vr paramName value =
            (true, f.replacement)) ∨
        (filterKnobChoiceOptionCompat pid pM pm vM vm vr paramName value =
            (false, value) ∧
          ∀ f ∈ knobChoiceOptionFilters,
            optionRuleMatches f pid pM pm vM vm vr paramName value = false)) :=
  fun _ _ _ _ _ _ _ _ _ =>
    ⟨filterKnobNameCompatList_total, filterKnobChoiceOptionCompatList_total⟩

/-- Claim C1: for every call to filterKnobNameCompat or
filterKnobChoiceOptionCompat the plugin gate of each alternative behaves
as a pure OR over its constraints: both lookups coincide, on all inputs,
with the reference lookups whose gate is literally "some constraint has a
matching identifier and an admissible version"; and that pure-OR gate is
invariant under any permutation of the constraint list, so permuting the
constraints of an alternative never changes the boolean result, and an
identifier-matching constraint with a failing version range never
prevents a later constraint or alternative from matching. -/
theorem claim_C1 :
    (∀ (pid : String) (pM pm vM vm vr : Int) (nm : String),
      filterKnobNameCompat pid pM pm vM vm vr nm =
        filterKnobNameCompatSpec pid pM pm vM vm vr nm) ∧
    (∀ (pid : String) (pM pm vM vm vr : Int) (paramName value : String),
      filterKnobChoiceOptionCompat pid pM pm vM vm vr paramName value =
        filterKnobChoiceOptionCompatSpec pid pM pm vM vm vr paramName value) ∧
    (∀ (l l' : List PluginMatch), l.Perm l' → ∀ (pid : String) (pM pm : Int),
      pluginListMatchSpec l pid pM pm = pluginListMatchSpec l' pid pM pm) := by
  refine ⟨?_, ?_, ?_⟩
  · intro pid pM pm vM vm vr nm
    exact filterKnobNameCompatList_eq_spec
      (fun f hf => knobNameFilter_match_eq_spec f hf nm pid pM pm vM vm vr)
  · intro pid pM pm vM vm vr paramName value
    exact filterKnobChoiceOptionCompatList_eq_spec
      (fun f hf => knobChoiceOptionFilter_match_eq_spec f hf paramName pid pM pm vM vm vr)
  · intro l l' h pid pM pm
    exact pluginListMatchSpec_perm h pid pM pm

/-- Witness for C1: the permutation conjunct applied to the swapped
IDistort/STMap constraint pair of the channelU alternative. -/
theorem claim_C1_witness :
    pluginListMatchSpec
        [⟨"net.sf.openfx.IDistort", -1, -1, -1, -1, .equalsCaseInsensitivePtr⟩,
         ⟨"net.sf.openfx.STMap", -1, -1, -1, -1, .equalsCaseInsensitivePtr⟩]
        "net.sf.openfx.STMap" 1 0 =
      pluginListMatchSpec
        [⟨"net.sf.openfx.STMap", -1, -1, -1, -1, .equalsCaseInsensitivePtr⟩,
         ⟨"net.sf.openfx.IDistort", -1, -1, -1, -1, .equalsCaseInsensitivePtr⟩]
        "net.sf.openfx.STMap" 1 0 :=
  claim_C1.2.2 _ _ (List.Perm.swap _ _ _) "net.sf.openfx.STMap" 1 0

/-- Counterexample for C6: with paramName "channels" and value "red"
(host 2.2.99, an openfx plug-in) no rule rewrites: the only rules whose
option patterns contain "red" gate the parameter name with the prefix
"maskChannel" or exact names, none of which matches "channels", and the
rules whose name gate accepts "channels" have no "red" option pattern. -/
theorem claim_C6_counterexample :
    filterKnobChoiceOptionCompat "net.sf.openfx.Foo" (-1) (-1) 2 2 99
      "channels" "red" = (false, "red") := by
  rfl

/-- Claim C6 as amended: the red-channel option rule is reached through
its prefix-based name gate, so a paramName starting with "maskChannel"
(for any plug-in identity and plug-in version, host 2.2.99) with value
"red" is rewritten to the color-plane identifier followed by ".R". -/
theorem claim_C6_amended :
    ∀ (pid : String) (pM pm : Int),
      filterKnobChoiceOptionCompat pid pM pm 2 2 99 "maskChannelFoo" "red" =
        (true, kNatronColorPlaneID ++ ".R") := by
  intro pid pM pm
  rfl

/-- Claim C7: the name lookup for "r" from an openfx plug-in rewrites to
the canonical red process-channel identifier at host version 2.2.99 (the
upper edge of the gate), and fails with the name unchanged at 2.3.0. -/
theorem claim_C7 :
    filterKnobNameCompat "net.sf.openfx.Foo" 1 0 2 2 99 "r" =
        (true, kNatronOfxParamProcessR) ∧
      filterKnobNameCompat "net.sf.openfx.Foo" 1 0 2 3 0 "r" = (false, "r") :=
  ⟨rfl, rfl⟩

/-- Claim C8: an upper bound whose major field is unbounded rejects no
candidate, whatever the candidate's or the bound's finer fields are; this
holds for the host-version upper gate and for the plug-in-version upper
gate. -/
theorem claim_C8 :
    (∀ (vMax : NatronVersionMatch), vMax.vMajor = -1 →
      ∀ (vM vm vr : Int), natronVersionMaxFails vMax vM vm vr = false) ∧
    (∀ (p : PluginMatch), p.pluginVersionMajorMax = -1 →
      ∀ (pM pm : Int), pluginVersionMaxFails p pM pm = false) := by
  constructor
  · intro vMax h vM vm vr
    simp [natronVersionMaxFails, h]
  · intro p h pM pm
    simp [pluginVersionMaxFails, h]

/-- Witness for C8: a concrete open upper bound with large finer fields
rejects a candidate above those fields in neither gate. -/
theorem claim_C8_witness :
    natronVersionMaxFails ⟨-1, 5, 7⟩ 9 9 9 = false ∧
      pluginVersionMaxFails
        ⟨"net.sf.openfx.ShufflePlugin", 2, -1, -1, 3, .equalsCaseInsensitivePtr⟩
        9 9 = false :=
  ⟨claim_C8.1 ⟨-1, 5, 7⟩ rfl 9 9 9, claim_C8.2 _ rfl 9 9⟩

/-- Claim C9: every registry entry has a non-empty replacement and a
non-empty list of name alternatives, and every option rule also has a
non-empty list of option patterns, so the assertions of the two lookup
functions and of matchKnobFilterInternal hold on every entry. -/
theorem claim_C9 :
    (∀ f ∈ knobNameFilters, f.replacement ≠ "" ∧ f.filters ≠ []) ∧
    (∀ f ∈ knobChoiceOptionFilters,
      f.replacement ≠ "" ∧ f.filters ≠ [] ∧ f.optionFilters ≠ []) := by
  decide

/-- Witness for C9: the invariants hold on the first rule of each
registry. -/
theorem claim_C9_witness :
    (kNatronOfxParamProcessR ≠ "" ∧
      [⟨inriaOrOpenfxPlugins, ⟨"r", StringFuncPtr.equalsCaseSensitivePtr⟩⟩,
       ⟨inriaOrOpenfxPlugins, ⟨"doRed", StringFuncPtr.equalsCaseSensitivePtr⟩⟩] ≠
        ([] : List KnobMatch)) := by
  have h := claim_C9.1 (knobNameFilters.get ⟨0, by decide⟩) (by decide)
  exact h

/-- On constraint lists that only use the default (case-insensitive)
identifier comparison, the constraint loop depends on the plugin ID only
through its case-folded key. -/
lemma scanPluginList_caseKey {pid pid' : String} {pM pm : Int}
    (hkey : lowerKey pid = lowerKey pid') :
    ∀ {l : List PluginMatch},
      (∀ p ∈ l, p.func = .equalsCaseInsensitivePtr) →
      scanPluginList pid pM pm l = scanPluginList pid' pM pm l
  | [], _ => rfl
  | p :: rest, h => by
    have hp := h p (List.mem_cons_self p rest)
    have hrest : scanPluginList pid pM pm rest = scanPluginList pid' pM pm rest :=
      scanPluginList_caseKey hkey (fun p' hp' => h p' (List.mem_cons_of_mem p hp'))
    have hcall : p.func.call pid p.pluginID = p.func.call pid' p.pluginID := by
      simp only [hp, StringFuncPtr.call, equalsStringCaseInsensitive, hkey]
    simp only [scanPluginList, hcall, hrest]

/-- On alternative lists whose plug-in constraints all use the default
comparison, the alternatives scan depends on the plugin ID only through
its case-folded key. -/
lemma scanKnobMatches_caseKey {nm pid pid' : String} {pM pm : Int}
    (hkey : lowerKey pid = lowerKey pid') :
    ∀ {l : List KnobMatch},
      (∀ m ∈ l, ∀ p ∈ m.plugin, p.func = .equalsCaseInsensitivePtr) →
      scanKnobMatches nm pid pM pm l = scanKnobMatches nm pid' pM pm l
  | [], _ => rfl
  | m :: rest, h => by
    have hm : scanPluginList pid pM pm m.plugin = scanPluginList pid' pM pm m.plugin :=
      scanPluginList_caseKey hkey (h m (List.mem_cons_self m rest))
    have hrest : scanKnobMatches nm pid pM pm rest = scanKnobMatches nm pid' pM pm rest :=
      scanKnobMatches_caseKey hkey (fun m' hm' => h m' (List.mem_cons_of_mem m hm'))
    simp only [scanKnobMatches, hm, hrest]

/-- Claim C10: constraints registered through addPluginMatch without
overriding the default comparison match the plugin ID case-insensitively:
for any rule whose plug-in constraints all use the default comparison,
changing only the letter case of the plugin ID never changes the rule's
match result, and the channelsFilterBase alternatives (IDistort, STMap,
ShufflePlugin) are all of this shape. -/
theorem claim_C10 :
    (∀ (filters : List KnobMatch) (vMin vMax : NatronVersionMatch)
        (nm pid pid' : String) (pM pm vM vm vr : Int),
      (∀ m ∈ filters, ∀ p ∈ m.plugin, p.func = .equalsCaseInsensitivePtr) →
      lowerKey pid = lowerKey pid' →
      matchKnobFilterInternal filters vMin vMax nm pid pM pm vM vm vr =
        matchKnobFilterInternal filters vMin vMax nm pid' pM pm vM vm vr) ∧
    (∀ m ∈ channelsFilterBaseFilters, ∀ p ∈ m.plugin,
      p.func = StringFuncPtr.equalsCaseInsensitivePtr) := by
  constructor
  · intro filters vMin vMax nm pid pid' pM pm vM vm vr h hkey
    simp only [matchKnobFilterInternal, scanKnobMatches_caseKey hkey h]
  · decide

/-- Witness for C10: the channelsFilterBase gate gives the same result
for an upper-cased ShufflePlugin identifier as for the canonical one. -/
theorem claim_C10_witness :
    matchKnobFilterInternal channelsFilterBaseFilters ⟨-1, -1, -1⟩ ⟨2, 2, 99⟩
        "outputR" "NET.SF.OPENFX.SHUFFLEPLUGIN" 2 0 2 2 99 =
      matchKnobFilterInternal channelsFilterBaseFilters ⟨-1, -1, -1⟩ ⟨2, 2, 99⟩
        "outputR" "net.sf.openfx.ShufflePlugin" 2 0 2 2 99 :=
  claim_C10.1 channelsFilterBaseFilters ⟨-1, -1, -1⟩ ⟨2, 2, 99⟩
    "outputR" "NET.SF.OPENFX.SHUFFLEPLUGIN" "net.sf.openfx.ShufflePlugin"
    2 0 2 2 99 (by decide) (by decide)

/-- A version bound with its minor and revision fields removed: what the
spec calls ignoring every field finer than the major. -/
def eraseBelowMajor (v : NatronVersionMatch) : NatronVersionMatch :=
  ⟨v.vMajor, -1, -1⟩

/-- A version bound with its revision field removed. -/
def eraseRev (v : NatronVersionMatch) : NatronVersionMatch :=
  ⟨v.vMajor, v.vMinor, -1⟩

/-- An unknown host major version passes every lower host gate. -/
lemma natronVersionMinFails_hostUnknown (vMin : NatronVersionMatch) (vm vr : Int) :
    natronVersionMinFails vMin (-1) vm vr = false := by
  simp [natronVersionMinFails]

/-- An unknown host major version passes every upper host gate. -/
lemma natronVersionMaxFails_hostUnknown (vMax : NatronVersionMatch) (vm vr : Int) :
    natronVersionMaxFails vMax (-1) vm vr = false := by
  simp [natronVersionMaxFails]

/-- An unknown plug-in major version passes every lower plug-in gate. -/
lemma pluginVersionMinFails_pluginUnknown (p : PluginMatch) (pm : Int) :
    pluginVersionMinFails p (-1) pm = false := by
  simp [pluginVersionMinFails]

/-- An unknown plug-in major version passes every upper plug-in gate. -/
lemma pluginVersionMaxFails_pluginUnknown (p : PluginMatch) (pm : Int) :
    pluginVersionMaxFails p (-1) pm = false := by
  simp [pluginVersionMaxFails]

/-- The absent lower host gate of every registry rule never fails. -/
lemma natronVersionMinFails_none (vM vm vr : Int) :
    natronVersionMinFails ⟨-1, -1, -1⟩ vM vm vr = false := by
  simp [natronVersionMinFails]

/-- With a candidate minor of -1, an upper host gate whose minor bound is
a genuine value (at least -1) behaves as if its minor and revision bounds
were removed: the sentinel disables those comparisons. -/
lemma natronVersionMaxFails_minorSentinel {g : NatronVersionMatch}
    (h : -1 ≤ g.vMinor) (vM vr : Int) :
    natronVersionMaxFails g vM (-1) vr =
      natronVersionMaxFails (eraseBelowMajor g) vM (-1) vr := by
  simp only [natronVersionMaxFails, eraseBelowMajor]
  rw [decide_eq_decide]
  omega

/-- With a candidate revision of -1, an upper host gate whose revision
bound is a genuine value behaves as if its revision bound were removed. -/
lemma natronVersionMaxFails_revSentinel {g : NatronVersionMatch}
    (h : -1 ≤ g.vRev) (vM vm : Int) :
    natronVersionMaxFails g vM vm (-1) =
      natronVersionMaxFails (eraseRev g) vM vm (-1) := by
  simp only [natronVersionMaxFails, eraseRev]
  rw [decide_eq_decide]
  omega

/-- A constraint without minor bounds never consults the plug-in minor
version in its lower gate. -/
lemma pluginVersionMinFails_minorFree {p : PluginMatch}
    (h : p.pluginVersionMinorMin = -1) (pM pm pm' : Int) :
    pluginVersionMinFails p pM pm = pluginVersionMinFails p pM pm' := by
  simp [pluginVersionMinFails, h]

/-- A constraint without minor bounds never consults the plug-in minor
version in its upper gate. -/
lemma pluginVersionMaxFails_minorFree {p : PluginMatch}
    (h : p.pluginVersionMinorMax = -1) (pM pm pm' : Int) :
    pluginVersionMaxFails p pM pm = pluginVersionMaxFails p pM pm' := by
  simp [pluginVersionMaxFails, h]

/-- Pointwise equal rule matchers give equal name lookups, for two
different version-argument tuples of the same registry walk. -/
lemma filterKnobNameCompatList_matchCongr {pid pid' : String}
    {pM pM' pm pm' vM vM' vm vm' vr vr' : Int} {nm : String} :
    ∀ {rules : List KnobNameFilter},
      (∀ f ∈ rules,
        matchKnobFilterInternal f.filters f.natronVersionMin f.natronVersionMax
            nm pid pM pm vM vm vr =
          matchKnobFilterInternal f.filters f.natronVersionMin f.natronVersionMax
            nm pid' pM' pm' vM' vm' vr') →
      filterKnobNameCompatList pid pM pm vM vm vr nm rules =
        filterKnobNameCompatList pid' pM' pm' vM' vm' vr' nm rules
  | [], _ => rfl
  | f :: rest, h => by
    have hrest : filterKnobNameCompatList pid pM pm vM vm vr nm rest =
        filterKnobNameCompatList pid' pM' pm' vM' vm' vr' nm rest :=
      filterKnobNameCompatList_matchCongr
        (fun f' hf' => h f' (List.mem_cons_of_mem f hf'))
    simp only [filterKnobNameCompatList, h f (List.mem_cons_self f rest), hrest]

/-- Pointwise equal rule matchers give equal option lookups, for two
different version-argument tuples of the same registry walk. -/
lemma filterKnobChoiceOptionCompatList_matchCongr {pid pid' : String}
    {pM pM' pm pm' vM vM' vm vm' vr vr' : Int} {paramName value : String} :
    ∀ {rules : List KnobChoiceOptionFilter},
      (∀ f ∈ rules,
        matchKnobFilterInternal f.filters f.natronVersionMin f.natronVersionMax
            paramName pid pM pm vM vm vr =
          matchKnobFilterInternal f.filters f.natronVersionMin f.natronVersionMax
            paramName pid' pM' pm' vM' vm' vr') →
      filterKnobChoiceOptionCompatList pid pM pm vM vm vr paramName value rules =
        filterKnobChoiceOptionCompatList pid' pM' pm' vM' vm' vr' paramName value rules
  | [], _ => rfl
  | f :: rest, h => by
    have hrest : filterKnobChoiceOptionCompatList pid pM pm vM vm vr
        paramName value rest =
        filterKnobChoiceOptionCompatList pid' pM' pm' vM' vm' vr' paramName value rest :=
      filterKnobChoiceOptionCompatList_matchCongr
        (fun f' hf' => h f' (List.mem_cons_of_mem f hf'))
    simp only [filterKnobChoiceOptionCompatList, h f (List.mem_cons_self f rest), hrest]

/-- With an unknown host major the rule match ignores the finer host
version fields completely. -/
lemma matchKnobFilterInternal_hostUnknown (filters : List KnobMatch)
    (vMin vMax : NatronVersionMatch) (nm pid : String) (pM pm vm vr vm' vr' : Int) :
    matchKnobFilterInternal filters vMin vMax nm pid pM pm (-1) vm vr =
      matchKnobFilterInternal filters vMin vMax nm pid pM pm (-1) vm' vr' := by
  simp only [matchKnobFilterInternal, natronVersionMinFails_hostUnknown,
    natronVersionMaxFails_hostUnknown]

/-- With an unknown host minor a registry-shaped rule (no lower gate,
sane upper bound) ignores the host revision completely. -/
lemma matchKnobFilterInternal_minorSentinel (filters : List KnobMatch)
    {vMin vMax : NatronVersionMatch} (h1 : vMin = ⟨-1, -1, -1⟩)
    (h2 : -1 ≤ vMax.vMinor) (nm pid : String) (pM pm vM vr vr' : Int) :
    matchKnobFilterInternal filters vMin vMax nm pid pM pm vM (-1) vr =
      matchKnobFilterInternal filters vMin vMax nm pid pM pm vM (-1) vr' := by
  subst h1
  have e3 : natronVersionMaxFails (eraseBelowMajor vMax) vM (-1) vr =
      natronVersionMaxFails (eraseBelowMajor vMax) vM (-1) vr' := by
    simp only [natronVersionMaxFails, eraseBelowMajor]
    rw [decide_eq_decide]
    omega
  simp only [matchKnobFilterInternal, natronVersionMinFails_none,
    natronVersionMaxFails_minorSentinel h2, e3]

/-- A rule all of whose constraints lack minor bounds never consults the
plug-in minor version. -/
lemma scanPluginList_minorFree {pid : String} {pM pm pm' : Int} :
    ∀ {l : List PluginMatch},
      (∀ p ∈ l, p.pluginVersionMinorMin = -1 ∧ p.pluginVersionMinorMax = -1) →
      scanPluginList pid pM pm l = scanPluginList pid pM pm' l
  | [], _ => rfl
  | p :: rest, h => by
    have hp := h p (List.mem_cons_self p rest)
    have hrest : scanPluginList pid pM pm rest = scanPluginList pid pM pm' rest :=
      scanPluginList_minorFree (fun p' hp' => h p' (List.mem_cons_of_mem p hp'))
    simp only [scanPluginList, pluginVersionMinFails_minorFree hp.1 pM pm pm',
      pluginVersionMaxFails_minorFree hp.2 pM pm pm', hrest]

/-- Alternatives whose constraints lack minor bounds never consult the
plug-in minor version. -/
lemma scanKnobMatches_minorFree {nm pid : String} {pM pm pm' : Int} :
    ∀ {l : List KnobMatch},
      (∀ m ∈ l, ∀ p ∈ m.plugin,
        p.pluginVersionMinorMin = -1 ∧ p.pluginVersionMinorMax = -1) →
      scanKnobMatches nm pid pM pm l = scanKnobMatches nm pid pM pm' l
  | [], _ => rfl
  | m :: rest, h => by
    have hm : scanPluginList pid pM pm m.plugin = scanPluginList pid pM pm' m.plugin :=
      scanPluginList_minorFree (h m (List.mem_cons_self m rest))
    have hrest : scanKnobMatches nm pid pM pm rest = scanKnobMatches nm pid pM pm' rest :=
      scanKnobMatches_minorFree (fun m' hm' => h m' (List.mem_cons_of_mem m hm'))
    simp only [scanKnobMatches, hm, hrest]

/-- A rule whose constraints lack minor bounds matches independently of
the plug-in minor version. -/
lemma matchKnobFilterInternal_minorFree {filters : List KnobMatch}
    (h : ∀ m ∈ filters, ∀ p ∈ m.plugin,
      p.pluginVersionMinorMin = -1 ∧ p.pluginVersionMinorMax = -1)
    (vMin vMax : NatronVersionMatch) (nm pid : String) (pM pm pm' vM vm vr : Int) :
    matchKnobFilterInternal filters vMin vMax nm pid pM pm vM vm vr =
      matchKnobFilterInternal filters vMin vMax nm pid pM pm' vM vm vr := by
  simp only [matchKnobFilterInternal,
    @scanKnobMatches_minorFree nm pid pM pm pm' filters h]

/-- Every registry rule has no lower host gate and sane upper bounds. -/
lemma registry_gates_sane :
    (∀ f ∈ knobNameFilters, f.natronVersionMin = ⟨-1, -1, -1⟩ ∧
      -1 ≤ f.natronVersionMax.vMinor ∧ -1 ≤ f.natronVersionMax.vRev) ∧
    (∀ f ∈ knobChoiceOptionFilters, f.natronVersionMin = ⟨-1, -1, -1⟩ ∧
      -1 ≤ f.natronVersionMax.vMinor ∧ -1 ≤ f.natronVersionMax.vRev) := by
  decide

/-- No registry constraint carries a minor plug-in-version bound. -/
lemma registry_plugin_minorFree :
    (∀ f ∈ knobNameFilters, ∀ m ∈ f.filters, ∀ p ∈ m.plugin,
      p.pluginVersionMinorMin = -1 ∧ p.pluginVersionMinorMax = -1) ∧
    (∀ f ∈ knobChoiceOptionFilters, ∀ m ∈ f.filters, ∀ p ∈ m.plugin,
      p.pluginVersionMinorMin = -1 ∧ p.pluginVersionMinorMax = -1) := by
  decide

/-- Claim C2: a caller-supplied sentinel of -1 in a version field
disables all version constraints on that field and every finer field for
that call.  Gate level: an unknown host or plug-in major passes every
gate outright; for every registry rule, a host minor of -1 makes the
upper gate behave as if its minor and revision bounds were removed, a
host revision of -1 as if its revision bound were removed, and no
registry constraint ever consults the plug-in minor.  Lookup level: with
host major -1 both lookups ignore the finer host fields, with host minor
-1 they ignore the host revision, and they never depend on the plug-in
minor at all. -/
theorem claim_C2 :
    (∀ (vMin vMax : NatronVersionMatch) (vm vr : Int),
      natronVersionMinFails vMin (-1) vm vr = false ∧
      natronVersionMaxFails vMax (-1) vm vr = false) ∧
    (∀ (p : PluginMatch) (pm : Int),
      pluginVersionMinFails p (-1) pm = false ∧
      pluginVersionMaxFails p (-1) pm = false) ∧
    (∀ f ∈ knobNameFilters, ∀ (vM vr : Int),
      natronVersionMinFails f.natronVersionMin vM (-1) vr = false ∧
      natronVersionMaxFails f.natronVersionMax vM (-1) vr =
        natronVersionMaxFails (eraseBelowMajor f.natronVersionMax) vM (-1) vr) ∧
    (∀ f ∈ knobChoiceOptionFilters, ∀ (vM vr : Int),
      natronVersionMinFails f.natronVersionMin vM (-1) vr = false ∧
      natronVersionMaxFails f.natronVersionMax vM (-1) vr =
        natronVersionMaxFails (eraseBelowMajor f.natronVersionMax) vM (-1) vr) ∧
    (∀ f ∈ knobNameFilters, ∀ (vM vm : Int),
      natronVersionMinFails f.natronVersionMin vM vm (-1) = false ∧
      natronVersionMaxFails f.natronVersionMax vM vm (-1) =
        natronVersionMaxFails (eraseRev f.natronVersionMax) vM vm (-1)) ∧
    (∀ f ∈ knobChoiceOptionFilters, ∀ (vM vm : Int),
      natronVersionMinFails f.natronVersionMin vM vm (-1) = false ∧
      natronVersionMaxFails f.natronVersionMax vM vm (-1) =
        natronVersionMaxFails (eraseRev f.natronVersionMax) vM vm (-1)) ∧
    (∀ f ∈ knobNameFilters, ∀ m ∈ f.filters, ∀ p ∈ m.plugin, ∀ (pM pm pm' : Int),
      pluginVersionMinFails p pM pm = pluginVersionMinFails p pM pm' ∧
      pluginVersionMaxFails p pM pm = pluginVersionMaxFails p pM pm') ∧
    (∀ f ∈ knobChoiceOptionFilters, ∀ m ∈ f.filters, ∀ p ∈ m.plugin,
      ∀ (pM pm pm' : Int),
      pluginVersionMinFails p pM pm = pluginVersionMinFails p pM pm' ∧
      pluginVersionMaxFails p pM pm = pluginVersionMaxFails p pM pm') ∧
    (∀ (pid : String) (pM pm vm vr vm' vr' : Int) (nm : String),
      filterKnobNameCompat pid pM pm (-1) vm vr nm =
        filterKnobNameCompat pid pM pm (-1) vm' vr' nm) ∧
    (∀ (pid : String) (pM pm vm vr vm' vr' : Int) (paramName value : String),
      filterKnobChoiceOptionCompat pid pM pm (-1) vm vr paramName value =
        filterKnobChoiceOptionCompat pid pM pm (-1) vm' vr' paramName value) ∧
    (∀ (pid : String) (pM pm vM vr vr' : Int) (nm : String),
      filterKnobNameCompat pid pM pm vM (-1) vr nm =
        filterKnobNameCompat pid pM pm vM (-1) vr' nm) ∧
    (∀ (pid : String) (pM pm vM vr vr' : Int) (paramName value : String),
      filterKnobChoiceOptionCompat pid pM pm vM (-1) vr paramName value =
        filterKnobChoiceOptionCompat pid pM pm vM (-1) vr' paramName value) ∧
    (∀ (pid : String) (pM pm pm' vM vm vr : Int) (nm : String),
      filterKnobNameCompat pid pM pm vM vm vr nm =
        filterKnobNameCompat pid pM pm' vM vm vr nm) ∧
    (∀ (pid : String) (pM pm pm' vM vm vr : Int) (paramName value : String),
      filterKnobChoiceOptionCompat pid pM pm vM vm vr paramName value =
        filterKnobChoiceOptionCompat pid pM pm' vM vm vr paramName value) := by
  refine ⟨?_, ?_, ?_, ?_, ?_, ?_, ?_, ?_, ?_, ?_, ?_, ?_, ?_, ?_⟩
  · intro vMin vMax vm vr
    exact ⟨natronVersionMinFails_hostUnknown vMin vm vr,
      natronVersionMaxFails_hostUnknown vMax vm vr⟩
  · intro p pm
    exact ⟨pluginVersionMinFails_pluginUnknown p pm,
      pluginVersionMaxFails_pluginUnknown p pm⟩
  · intro f hf vM vr
    obtain ⟨h1, h2, _⟩ := registry_gates_sane.1 f hf
    exact ⟨h1 ▸ natronVersionMinFails_none vM (-1) vr,
      natronVersionMaxFails_minorSentinel h2 vM vr⟩
  · intro f hf vM vr
    obtain ⟨h1, h2, _⟩ := registry_gates_sane.2 f hf
    exact ⟨h1 ▸ natronVersionMinFails_none vM (-1) vr,
      natronVersionMaxFails_minorSentinel h2 vM vr⟩
  · intro f hf vM vm
    obtain ⟨h1, _, h3⟩ := registry_gates_sane.1 f hf
    exact ⟨h1 ▸ natronVersionMinFails_none vM vm (-1),
      natronVersionMaxFails_revSentinel h3 vM vm⟩
  · intro f hf vM vm
    obtain ⟨h1, _, h3⟩ := registry_gates_sane.2 f hf
    exact ⟨h1 ▸ natronVersionMinFails_none vM vm (-1),
      natronVersionMaxFails_revSentinel h3 vM vm⟩
  · intro f hf m hm p hp pM pm pm'
    obtain ⟨h1, h2⟩ := registry_plugin_minorFree.1 f hf m hm p hp
    exact ⟨pluginVersionMinFails_minorFree h1 pM pm pm',
      pluginVersionMaxFails_minorFree h2 pM pm pm'⟩
  · intro f hf m hm p hp pM pm pm'
    obtain ⟨h1, h2⟩ := registry_plugin_minorFree.2 f hf m hm p hp
    exact ⟨pluginVersionMinFails_minorFree h1 pM pm pm',
      pluginVersionMaxFails_minorFree h2 pM pm pm'⟩
  · intro pid pM pm vm vr vm' vr' nm
    exact filterKnobNameCompatList_matchCongr
      (fun f _ => matchKnobFilterInternal_hostUnknown f.filters f.natronVersionMin
        f.natronVersionMax nm pid pM pm vm vr vm' vr')
  · intro pid pM pm vm vr vm' vr' paramName value
    exact filterKnobChoiceOptionCompatList_matchCongr
      (fun f _ => matchKnobFilterInternal_hostUnknown f.filters f.natronVersionMin
        f.natronVersionMax paramName pid pM pm vm vr vm' vr')
  · intro pid pM pm vM vr vr' nm
    exact filterKnobNameCompatList_matchCongr
      (fun f hf => matchKnobFilterInternal_minorSentinel f.filters
        (registry_gates_sane.1 f hf).1 (registry_gates_sane.1 f hf).2.1
        nm pid pM pm vM vr vr')
  · intro pid pM pm vM vr vr' paramName value
    exact filterKnobChoiceOptionCompatList_matchCongr
      (fun f hf => matchKnobFilterInternal_minorSentinel f.filters
        (registry_gates_sane.2 f hf).1 (registry_gates_sane.2 f hf).2.1
        paramName pid pM pm vM vr vr')
  · intro pid pM pm pm' vM vm vr nm
    exact filterKnobNameCompatList_matchCongr
      (fun f hf => matchKnobFilterInternal_minorFree
        (registry_plugin_minorFree.1 f hf) f.natronVersionMin f.natronVersionMax
        nm pid pM pm pm' vM vm vr)
  · intro pid pM pm pm' vM vm vr paramName value
    exact filterKnobChoiceOptionCompatList_matchCongr
      (fun f hf => matchKnobFilterInternal_minorFree
        (registry_plugin_minorFree.2 f hf) f.natronVersionMin f.natronVersionMax
        paramName pid pM pm pm' vM vm vr)

/-- Witness for C2: concrete instances of the registry-quantified
conjuncts at the first name rule, plus a sentinel call with host version
(2, -1, -1) passing the 2.2.99 gate with its revision ignored. -/
theorem claim_C2_witness :
    (natronVersionMaxFails ⟨2, 2, 99⟩ 2 (-1) 1000 =
      natronVersionMaxFails ⟨2, -1, -1⟩ 2 (-1) 1000) ∧
    filterKnobNameCompat "net.sf.openfx.Foo" 1 0 2 (-1) 1000 "r" =
      filterKnobNameCompat "net.sf.openfx.Foo" 1 0 2 (-1) 0 "r" := by
  constructor
  · exact (claim_C2.2.2.1 (knobNameFilters.get ⟨0, by decide⟩) (by decide) 2 1000).2
  · exact claim_C2.2.2.2.2.2.2.2.2.2.2.1 "net.sf.openfx.Foo" 1 0 2 1000 0 "r"

end LoadKnobsCompat
